import Mathlib

/-!
FluxStore front-end verification: a shallow embedding of the two core
components of the repository — the `Gallery` image carousel
(src/components/Gallery.jsx) and the `ProductGridContent` grid controller
(the unnamed client component with `fetchProducts`, `handlePageChange`,
`handleReset`), together with proofs of the specified properties.

JavaScript integers are modelled as `Int`; the JS `%` operator (truncating
remainder) is `Int.tmod`.  React `useState` triples are collected into
explicit state structures, and each event handler or effect becomes a pure
state-transition function.
-/

namespace FluxStore

/-! ### Gallery carousel: state and operations (Gallery.jsx lines 7-33, 81-86) -/

/-- Carousel component state: `currentIndex`, `direction`, `animation`
(Gallery.jsx lines 8-10). -/
structure GalleryState where
  currentIndex : Int
  direction : Int
  animation : Bool
deriving DecidableEq, Repr

/-- Initial carousel state: `useState(0)`, `useState(0)`, `useState(false)`. -/
def initGallery : GalleryState :=
  { currentIndex := 0, direction := 0, animation := false }

/-- The `nextImage` handler (Gallery.jsx lines 19-24): no-op while `animation`
is set; otherwise direction 1, animation on, index `(prevIndex + 1) % images.length`. -/
def nextImage (len : Int) (s : GalleryState) : GalleryState :=
  if s.animation then s
  else { currentIndex := (s.currentIndex + 1).tmod len
         direction := 1
         animation := true }

/-- The `prevImage` handler (Gallery.jsx lines 26-33): no-op while `animation`
is set; otherwise direction -1, animation on, index
`(prevIndex - 1 + images.length) % images.length`. -/
def prevImage (len : Int) (s : GalleryState) : GalleryState :=
  if s.animation then s
  else { currentIndex := (s.currentIndex - 1 + len).tmod len
         direction := -1
         animation := true }

/-- The indicator-dot click handler (Gallery.jsx lines 81-86): no-op while
`animation` is set; otherwise direction `index > currentIndex ? 1 : -1`,
animation on, index set directly. -/
def jumpTo (index : Int) (s : GalleryState) : GalleryState :=
  if s.animation then s
  else { currentIndex := index
         direction := if index > s.currentIndex then 1 else -1
         animation := true }

/-- Firing of the 500ms animation-release timer scheduled by the effect at
Gallery.jsx line 14: `setAnimation(false)`. -/
def animationTimerFires (s : GalleryState) : GalleryState :=
  { s with animation := false }

/-- One fully settled advance: `nextImage` followed by the animation timer
firing (the calls in the cyclic-invariant property are spaced beyond the
500-unit lock). -/
def advanceSettled (len : Int) (s : GalleryState) : GalleryState :=
  animationTimerFires (nextImage len s)

/-- The index invariant of the carousel: `0 ≤ currentIndex < N`. -/
def galleryInv (len : Int) (s : GalleryState) : Prop :=
  0 ≤ s.currentIndex ∧ s.currentIndex < len

instance (len : Int) (s : GalleryState) : Decidable (galleryInv len s) := by
  unfold galleryInv; infer_instance

end FluxStore

namespace FluxStore

/-- C6 -- While `animation` is true, `nextImage`, `prevImage` and the
indicator-dot jump are all no-ops: the whole carousel state is unchanged. -/
theorem animating_calls_are_noops (len k : Int) (s : GalleryState)
    (h : s.animation = true) :
    nextImage len s = s ∧ prevImage len s = s ∧ jumpTo k s = s := by
  refine ⟨?_, ?_, ?_⟩ <;> simp [nextImage, prevImage, jumpTo, h]

/-- Witness for C6 at the concrete state ⟨2, 1, true⟩ with len = 5, k = 0. -/
theorem animating_calls_are_noops_witness :
    (⟨2, 1, true⟩ : GalleryState).animation = true ∧
      (nextImage 5 ⟨2, 1, true⟩ = ⟨2, 1, true⟩ ∧
       prevImage 5 ⟨2, 1, true⟩ = ⟨2, 1, true⟩ ∧
       jumpTo 0 ⟨2, 1, true⟩ = ⟨2, 1, true⟩) :=
  ⟨rfl, animating_calls_are_noops 5 0 ⟨2, 1, true⟩ rfl⟩

/-- C8 -- For a non-empty image list (0 < len) the invariant
`0 ≤ currentIndex < len` holds initially and is preserved by `nextImage`,
`prevImage`, and `jumpTo k` for every in-range dot index `k`. -/
theorem gallery_index_invariant (len : Int) (hlen : 0 < len) :
    galleryInv len initGallery ∧
    (∀ s, galleryInv len s → galleryInv len (nextImage len s)) ∧
    (∀ s, galleryInv len s → galleryInv len (prevImage len s)) ∧
    (∀ s k, 0 ≤ k → k < len → galleryInv len s → galleryInv len (jumpTo k s)) := by
  have hne : len ≠ 0 := by omega
  refine ⟨⟨le_refl 0, hlen⟩, ?_, ?_, ?_⟩
  · intro s hs
    obtain ⟨hs0, hs1⟩ := hs
    unfold nextImage
    split
    · exact ⟨hs0, hs1⟩
    · have h1 : (s.currentIndex + 1).tmod len = (s.currentIndex + 1) % len :=
        Int.tmod_eq_emod (by omega) (by omega)
      unfold galleryInv
      constructor
      · simpa [h1] using Int.emod_nonneg (s.currentIndex + 1) hne
      · simpa [h1] using Int.emod_lt_of_pos (s.currentIndex + 1) hlen
  · intro s hs
    obtain ⟨hs0, hs1⟩ := hs
    unfold prevImage
    split
    · exact ⟨hs0, hs1⟩
    · have h1 : (s.currentIndex - 1 + len).tmod len = (s.currentIndex - 1 + len) % len :=
        Int.tmod_eq_emod (by omega) (by omega)
      unfold galleryInv
      constructor
      · simpa [h1] using Int.emod_nonneg (s.currentIndex - 1 + len) hne
      · simpa [h1] using Int.emod_lt_of_pos (s.currentIndex - 1 + len) hlen
  · intro s k hk0 hk1 hs
    unfold jumpTo
    split
    · exact hs
    · exact ⟨hk0, hk1⟩

/-- Witness for C8 at len = 2. -/
theorem gallery_index_invariant_witness :
    (0 : Int) < 2 ∧ galleryInv 2 initGallery :=
  ⟨by decide, (gallery_index_invariant 2 (by decide)).1⟩

/-- One settled advance from an unlocked state, written out. -/
lemma advanceSettled_of_not_animating (len : Int) (t : GalleryState)
    (ht : t.animation = false) :
    advanceSettled len t =
      { currentIndex := (t.currentIndex + 1).tmod len
        direction := 1
        animation := false } := by
  simp [advanceSettled, nextImage, animationTimerFires, ht]

/-- After k settled advances from an unlocked in-range state, the index is
`(start + k) % len` and the lock is released again. -/
lemma advanceSettled_iterate (len : Int) (hlen : 0 < len) (s : GalleryState)
    (h0 : 0 ≤ s.currentIndex) (h1 : s.currentIndex < len)
    (ha : s.animation = false) (k : Nat) :
    ((advanceSettled len)^[k] s).currentIndex = (s.currentIndex + k) % len ∧
    ((advanceSettled len)^[k] s).animation = false := by
  have hne : len ≠ 0 := by omega
  induction k with
  | zero =>
    refine ⟨?_, by simpa using ha⟩
    simpa using (Int.emod_eq_of_lt h0 h1).symm
  | succ k ih =>
    obtain ⟨ihc, iha⟩ := ih
    rw [Function.iterate_succ_apply']
    have hnn : 0 ≤ (s.currentIndex + k) % len := Int.emod_nonneg _ hne
    have htm : (((advanceSettled len)^[k] s).currentIndex + 1).tmod len =
        (((advanceSettled len)^[k] s).currentIndex + 1) % len := by
      rw [ihc]; exact Int.tmod_eq_emod (by omega) (by omega)
    rw [advanceSettled_of_not_animating len _ iha]
    refine ⟨?_, rfl⟩
    show (((advanceSettled len)^[k] s).currentIndex + 1).tmod len = _
    rw [htm, ihc, Int.emod_add_emod]
    push_cast
    ring_nf

/-- C7 -- With calls spaced beyond the animation lock, a full cycle of
`len` settled `nextImage` advances returns `currentIndex` to its starting
value; a single `advance` in either direction updates the index to
`(currentIndex + direction + len) % len`. -/
theorem advance_cycle (len : Int) (hlen : 2 ≤ len) (s : GalleryState)
    (h0 : 0 ≤ s.currentIndex) (h1 : s.currentIndex < len)
    (ha : s.animation = false) :
    ((advanceSettled len)^[len.toNat] s).currentIndex = s.currentIndex ∧
    (nextImage len s).currentIndex = (s.currentIndex + 1 + len) % len ∧
    (prevImage len s).currentIndex = (s.currentIndex + (-1) + len) % len := by
  have hpos : 0 < len := by omega
  refine ⟨?_, ?_, ?_⟩
  · have h := (advanceSettled_iterate len hpos s h0 h1 ha len.toNat).1
    rw [h, Int.toNat_of_nonneg (by omega)]
    rw [show s.currentIndex + len = s.currentIndex + len * 1 by ring,
        Int.add_mul_emod_self_left]
    exact Int.emod_eq_of_lt h0 h1
  · unfold nextImage
    rw [if_neg (by simp [ha])]
    have := Int.tmod_eq_emod (a := s.currentIndex + 1) (b := len) (by omega) (by omega)
    simp only [this]
    rw [show s.currentIndex + 1 + len = s.currentIndex + 1 + len * 1 by ring,
        Int.add_mul_emod_self_left]
  · unfold prevImage
    rw [if_neg (by simp [ha])]
    have := Int.tmod_eq_emod (a := s.currentIndex - 1 + len) (b := len) (by omega) (by omega)
    simp only [this]
    ring_nf

/-- Slide class string computed for the image at position `index`
(Gallery.jsx lines 41-49): the nested conditional on `currentIndex`,
`(currentIndex - 1 + images.length) % images.length` and
`(currentIndex + 1) % images.length`.  Only the varying suffix of the
className is modelled; the constant transition classes are common to all
branches. -/
def slideClass (currentIndex len index : Int) : String :=
  if index = currentIndex then "opacity-100 translate-x-0"
  else if index = (currentIndex - 1 + len).tmod len then "opacity-0 -translate-x-full"
  else if index = (currentIndex + 1).tmod len then "opacity-0 translate-x-full"
  else "opacity-0"

/-- Abstract visual state of a slide. -/
inductive VisualState where
  | active
  | incoming
  | hidden
deriving DecidableEq, Repr

/-- Reading of a slide class string: fully opaque in place is `active`; a
class that positions the slide offscreen (either side, ready to slide in)
is `incoming`; bare `opacity-0` is `hidden`. -/
def visualOfClass (c : String) : VisualState :=
  if c = "opacity-100 translate-x-0" then .active
  else if c = "opacity-0 -translate-x-full" ∨ c = "opacity-0 translate-x-full" then .incoming
  else .hidden

/-- Stated from the claim, for comparison with the code: `active` when
`i = current`; `incoming` when `i = (current+1) mod N` and the last move was
forward, or `i = (current-1+N) mod N` and the last move was backward;
`hidden` otherwise. -/
def claimVisualState (currentIndex index len direction : Int) : VisualState :=
  if index = currentIndex then .active
  else if (direction = 1 ∧ index = (currentIndex + 1) % len) ∨
          (direction = -1 ∧ index = (currentIndex - 1 + len) % len) then .incoming
  else .hidden

/-- The direction-free classification actually implemented: `active` when
`i = current`; `incoming` when `i` sits in the previous slot
`(current-1+N) mod N` or the next slot `(current+1) mod N`, regardless of
the direction of the last move; `hidden` otherwise. -/
def positionalVisualState (currentIndex index len : Int) : VisualState :=
  if index = currentIndex then .active
  else if index = (currentIndex - 1 + len) % len ∨ index = (currentIndex + 1) % len then .incoming
  else .hidden

/-- C5 counterexample -- in the reachable state after a settled backward
move with 3 images (currentIndex = 0, direction = -1), image 1 is rendered
with the positioned offscreen class `opacity-0 translate-x-full`, while the
claim's direction-dependent rule calls it `hidden`. -/
theorem slide_visual_direction_counterexample :
    (animationTimerFires (prevImage 3
        { currentIndex := 1, direction := 0, animation := false })).direction = -1 ∧
    (animationTimerFires (prevImage 3
        { currentIndex := 1, direction := 0, animation := false })).currentIndex = 0 ∧
    slideClass 0 3 1 = "opacity-0 translate-x-full" ∧
    visualOfClass (slideClass 0 3 1) ≠ claimVisualState 0 1 3 (-1) := by
  decide

/-- C5 (amended) -- each image's visual state is a pure function of
(current index, candidate index, list length) alone, independent of the
last move's direction: active at the current slot, incoming (positioned
offscreen) at both neighbouring slots, hidden elsewhere. -/
theorem slide_visual_positional (c len i : Int) (hc : 0 ≤ c) (hlen : 1 ≤ len) :
    visualOfClass (slideClass c len i) = positionalVisualState c i len := by
  have h1 : (c - 1 + len).tmod len = (c - 1 + len) % len :=
    Int.tmod_eq_emod (by omega) (by omega)
  have h2 : (c + 1).tmod len = (c + 1) % len :=
    Int.tmod_eq_emod (by omega) (by omega)
  simp only [slideClass, positionalVisualState, h1, h2]
  split_ifs <;> simp_all [visualOfClass]

/-- Witness for C5's amended theorem at c = 0, len = 3, i = 2. -/
theorem slide_visual_positional_witness :
    (0 : Int) ≤ 0 ∧ (1 : Int) ≤ 3 ∧
      visualOfClass (slideClass 0 3 2) = positionalVisualState 0 2 3 :=
  ⟨by decide, by decide, slide_visual_positional 0 3 2 (by decide) (by decide)⟩

/-- Witness for C7: len = 3 from the initial state. -/
theorem advance_cycle_witness :
    (2 : Int) ≤ 3 ∧ 0 ≤ initGallery.currentIndex ∧ initGallery.currentIndex < 3 ∧
      initGallery.animation = false ∧
      ((advanceSettled 3)^[(3 : Int).toNat] initGallery).currentIndex =
        initGallery.currentIndex :=
  ⟨by decide, by decide, by decide, rfl,
    (advance_cycle 3 (by decide) initGallery (by decide) (by decide) rfl).1⟩

/-! ### Grid controller: state, parameters, cache and fetchProducts
(part_000 lines 25-108) -/

/-- ProductGridContent component state (part_000 lines 28-32); product
records are opaque, the type parameter α.  Initial values: products `[]`,
error `null`, loading `true`, isReset `false`, hasMore `true`. -/
structure GridState (α : Type) where
  products : List α
  error : Option String
  loading : Bool
  isReset : Bool
  hasMore : Bool
deriving DecidableEq, Repr

/-- Initial grid state from the `useState` initialisers. -/
def initialGridState (α : Type) : GridState α :=
  { products := [], error := none, loading := true, isReset := false, hasMore := true }

/-- The recognised query parameters derived from the URL
(part_000 lines 36-40). -/
structure QueryParams where
  currentPage : Int
  category : String
  search : String
  sortBy : String
  order : String
deriving DecidableEq, Repr

/-- The fixed page size (part_000 line 41). -/
def limit : Nat := 20

/-- The localStorage key built at part_000 lines 73 and 80:
products-{page}-{category}-{search}-{sortBy}-{order}. -/
def cacheKey (p : QueryParams) : String :=
  "products-" ++ toString p.currentPage ++ "-" ++ p.category ++ "-" ++
    p.search ++ "-" ++ p.sortBy ++ "-" ++ p.order

/-- The external offline cache, a key-value map. -/
def Cache (α : Type) : Type := String → Option (List α)

/-- firebaseDataManager.saveToLocalStorage. -/
def saveToLocalStorage {α : Type} (c : Cache α) (key : String) (data : List α) : Cache α :=
  fun k => if k = key then some data else c k

/-- firebaseDataManager.getFromLocalStorage. -/
def getFromLocalStorage {α : Type} (c : Cache α) (key : String) : Option (List α) :=
  c key

/-- The error message set in the catch branch (part_000 line 88). -/
def fetchErrorMessage : String :=
  "Failed to load products. Please try again later."

/-- The `fetchProducts` function (part_000 lines 56-92) as a state
transition.  `apiResult` is the outcome of the awaited `getProducts` call on
the online path: `.ok data` when it resolves, `.error e` when it throws.
The try block sets loading, branches on `isOnline` (online: fetch and cache;
offline: read cache with `|| []` fallback), then on success sets products,
`hasMore = (data.length === limit)` and clears error; the catch branch sets
only the error message; the finally branch clears loading. -/
def fetchProducts {α : Type} (isOnline : Bool) (p : QueryParams)
    (apiResult : Except String (List α)) (cache : Cache α) (st : GridState α) :
    GridState α × Cache α :=
  let st := { st with loading := true }
  if isOnline then
    match apiResult with
    | .ok data =>
      let cache := saveToLocalStorage cache (cacheKey p) data
      ({ st with products := data
                 hasMore := data.length == limit
                 error := none
                 loading := false }, cache)
    | .error _ =>
      ({ st with error := some fetchErrorMessage, loading := false }, cache)
  else
    let data := (getFromLocalStorage cache (cacheKey p)).getD []
    ({ st with products := data
               hasMore := data.length == limit
               error := none
               loading := false }, cache)

/-- C1 -- When the online `getProducts` call throws, the run ends with
loading = false and error set to the non-null user-facing message, while
products, hasMore and isReset keep their values from before the run, and
the cache is left untouched (no automatic fallback). -/
theorem fetchProducts_error_path {α : Type} (p : QueryParams) (e : String)
    (cache : Cache α) (st : GridState α) :
    ((fetchProducts true p (.error e) cache st).1.loading = false) ∧
    ((fetchProducts true p (.error e) cache st).1.error = some fetchErrorMessage) ∧
    ((fetchProducts true p (.error e) cache st).1.error ≠ none) ∧
    ((fetchProducts true p (.error e) cache st).1.products = st.products) ∧
    ((fetchProducts true p (.error e) cache st).1.hasMore = st.hasMore) ∧
    ((fetchProducts true p (.error e) cache st).1.isReset = st.isReset) ∧
    ((fetchProducts true p (.error e) cache st).2 = cache) := by
  refine ⟨rfl, rfl, by simp [fetchProducts], rfl, rfl, rfl, rfl⟩

/-- C2 -- Offline with a cache miss on the derived key: the run ends with
products = [], hasMore = false, error = null and loading = false (a cache
miss while offline is not an error). -/
theorem fetchProducts_offline_cache_miss {α : Type} (p : QueryParams)
    (r : Except String (List α)) (cache : Cache α) (st : GridState α)
    (h : cache (cacheKey p) = none) :
    ((fetchProducts false p r cache st).1.products = []) ∧
    ((fetchProducts false p r cache st).1.hasMore = false) ∧
    ((fetchProducts false p r cache st).1.error = none) ∧
    ((fetchProducts false p r cache st).1.loading = false) := by
  simp [fetchProducts, getFromLocalStorage, h, limit]

/-- Witness for C2 with α = Nat, the empty cache and default parameters. -/
theorem fetchProducts_offline_cache_miss_witness :
    ((fun _ => none : Cache Nat) (cacheKey ⟨1, "", "", "", ""⟩) = none) ∧
    ((fetchProducts false ⟨1, "", "", "", ""⟩ (.ok [7])
        (fun _ => none) (initialGridState Nat)).1.products = [] ∧
     (fetchProducts false ⟨1, "", "", "", ""⟩ (.ok [7])
        (fun _ => none) (initialGridState Nat)).1.hasMore = false) :=
  ⟨rfl,
    ⟨(fetchProducts_offline_cache_miss ⟨1, "", "", "", ""⟩ (.ok [7])
        (fun _ => none) (initialGridState Nat) rfl).1,
     (fetchProducts_offline_cache_miss ⟨1, "", "", "", ""⟩ (.ok [7])
        (fun _ => none) (initialGridState Nat) rfl).2.1⟩⟩

/-- C3 -- A run that completes without failure sets products to exactly the
fetched (or cached) result, sets hasMore to true iff the result length is
the fixed page size 20, and clears error. -/
theorem fetchProducts_success_sets_result {α : Type} (p : QueryParams)
    (data : List α) (r : Except String (List α)) (cache : Cache α)
    (st : GridState α) :
    ((fetchProducts true p (.ok data) cache st).1.products = data) ∧
    ((fetchProducts true p (.ok data) cache st).1.hasMore = true ↔ data.length = 20) ∧
    ((fetchProducts true p (.ok data) cache st).1.error = none) ∧
    ((fetchProducts false p r cache st).1.products
        = ((cache (cacheKey p)).getD [])) ∧
    ((fetchProducts false p r cache st).1.hasMore = true
        ↔ ((cache (cacheKey p)).getD []).length = 20) ∧
    ((fetchProducts false p r cache st).1.error = none) := by
  refine ⟨rfl, ?_, rfl, rfl, ?_, rfl⟩ <;>
    simp [fetchProducts, getFromLocalStorage, limit]

/-! ### Timers and teardown (Gallery.jsx lines 12-17, part_000 lines 104-108) -/

/-- The environment's pending `setTimeout` callbacks, identified by id. -/
structure TimerBank where
  pending : List Nat
  nextId : Nat
deriving DecidableEq, Repr

/-- A fresh timer bank with nothing scheduled. -/
def TimerBank.empty : TimerBank := { pending := [], nextId := 0 }

/-- Scheduling a `setTimeout` callback: returns the timer id and the
updated bank. -/
def setTimeout (tb : TimerBank) : Nat × TimerBank :=
  (tb.nextId, { pending := tb.pending ++ [tb.nextId], nextId := tb.nextId + 1 })

/-- A `clearTimeout` call: removes the given id from the pending set. -/
def clearTimeout (tb : TimerBank) (id : Nat) : TimerBank :=
  { tb with pending := tb.pending.filter (fun i => i ≠ id) }

/-- The Gallery animation effect (Gallery.jsx lines 12-17): when `animation`
is set it schedules the 500-unit release timer and returns its id as the
effect's cleanup handle (the source returns a closure running
`clearTimeout(timer)`); otherwise no timer and no cleanup. -/
def galleryAnimationEffect (animation : Bool) (tb : TimerBank) :
    TimerBank × Option Nat :=
  if animation then
    let r := setTimeout tb
    (r.2, some r.1)
  else (tb, none)

/-- Gallery teardown: React runs the effect's cleanup, which clears the
scheduled timer when one is pending. -/
def galleryTeardown (tb : TimerBank) (cleanup : Option Nat) : TimerBank :=
  match cleanup with
  | some timer => clearTimeout tb timer
  | none => tb

/-- The `handleReset` handler (part_000 lines 104-108): sets `isReset`,
navigates to the bare root path, and schedules
`setTimeout(() => setIsReset(false), 100)`; the returned timer id is
discarded by the source.  Returns (new state, timer bank, navigation
target). -/
def handleReset {α : Type} (st : GridState α) (tb : TimerBank) :
    GridState α × TimerBank × String :=
  let st := { st with isReset := true }
  let r := setTimeout tb
  (st, r.2, "/")

/-- Grid teardown: neither the fetch effect (part_000 lines 48-50) nor
`handleReset` registers any cleanup, so unmounting the component clears
nothing — the timer bank is returned unchanged. -/
def gridTeardown (tb : TimerBank) : TimerBank := tb

/-- Firing of the pending reset timer: `setIsReset(false)` (part_000
line 107). -/
def resetTimerFires {α : Type} (st : GridState α) : GridState α :=
  { st with isReset := false }

/-- C4 -- The carousel's animation-release timer is indeed cleared by its
effect cleanup at teardown, but the grid's 100-unit reset-flag timer is
not: after `handleReset` and teardown it is still pending, and when it
fires it still mutates the disposed component's state. -/
theorem reset_timer_not_cancelled_on_teardown :
    (galleryTeardown (galleryAnimationEffect true TimerBank.empty).1
        (galleryAnimationEffect true TimerBank.empty).2).pending = [] ∧
    (gridTeardown (handleReset (initialGridState Nat) TimerBank.empty).2.1).pending = [0] ∧
    (resetTimerFires (handleReset (initialGridState Nat) TimerBank.empty).1).isReset = false := by
  decide

/-! ### URL query handling (part_000 lines 36, 98-102) -/

/-- Remove every pair with the given key (the deletion step of
`URLSearchParams.set`). -/
def removeParam : List (String × String) → String → List (String × String)
  | [], _ => []
  | kv :: rest, key =>
    if kv.1 = key then removeParam rest key else kv :: removeParam rest key

/-- `URLSearchParams.set(key, value)`: replace the first pair with the key
in place, drop any further pairs with the key, append when absent. -/
def setParam : List (String × String) → String → String → List (String × String)
  | [], key, value => [(key, value)]
  | kv :: rest, key, value =>
    if kv.1 = key then (key, value) :: removeParam rest key
    else kv :: setParam rest key value

/-- `URLSearchParams.get(key)`: the value of the first pair with the key,
absent when no pair has the key. -/
def getParam : List (String × String) → String → Option String
  | [], _ => none
  | kv :: rest, key => if kv.1 = key then some kv.2 else getParam rest key

/-- `URLSearchParams.toString()`: ampersand-joined key=value pairs
(percent-encoding is not modelled; the recognised values here need none). -/
def serializeParams (params : List (String × String)) : String :=
  String.intercalate "&" (params.map (fun kv => kv.1 ++ "=" ++ kv.2))

/-- The `handlePageChange` handler (part_000 lines 98-102): copies the
current query, rewrites `page` to the new page number, and navigates to
`/?` followed by the serialised query. -/
def handlePageChange (params : List (String × String)) (newPage : Int) : String :=
  "/?" ++ serializeParams (setParam params "page" (toString newPage))

lemma getParam_removeParam (params : List (String × String)) (key k : String)
    (hk : k ≠ key) : getParam (removeParam params key) k = getParam params k := by
  induction params with
  | nil => rfl
  | cons kv rest ih =>
    by_cases h : kv.1 = key
    · have hkv : kv.1 ≠ k := fun hx => hk (hx ▸ h)
      simp [removeParam, getParam, h, hkv, Ne.symm hk, ih]
    · by_cases h2 : kv.1 = k
      · simp [removeParam, getParam, h, h2, hk]
      · simp [removeParam, getParam, h, h2, ih]

lemma getParam_setParam_self (params : List (String × String)) (key v : String) :
    getParam (setParam params key v) key = some v := by
  induction params with
  | nil => simp [setParam, getParam]
  | cons kv rest ih =>
    by_cases h : kv.1 = key
    · simp [setParam, getParam, h]
    · simp [setParam, getParam, h, ih]

lemma getParam_setParam_other (params : List (String × String)) (key v k : String)
    (hk : k ≠ key) : getParam (setParam params key v) k = getParam params k := by
  induction params with
  | nil => simp [setParam, getParam, Ne.symm hk]
  | cons kv rest ih =>
    by_cases h : kv.1 = key
    · have hkv : kv.1 ≠ k := fun hx => hk (hx ▸ h)
      simp [setParam, getParam, h, hkv, Ne.symm hk, getParam_removeParam rest key k hk]
    · by_cases h2 : kv.1 = k
      · simp [setParam, getParam, h, h2, hk]
      · simp [setParam, getParam, h, h2, ih]

/-- C9 -- `handlePageChange(newPage)` navigates to a URL whose query is the
current query with `page` rewritten to `newPage` and every other key's
value preserved unchanged. -/
theorem handlePageChange_rewrites_page_only (params : List (String × String))
    (newPage : Int) (k : String) (hk : k ≠ "page") :
    handlePageChange params newPage =
      "/?" ++ serializeParams (setParam params "page" (toString newPage)) ∧
    getParam (setParam params "page" (toString newPage)) "page"
      = some (toString newPage) ∧
    getParam (setParam params "page" (toString newPage)) k = getParam params k :=
  ⟨rfl, getParam_setParam_self params "page" (toString newPage),
    getParam_setParam_other params "page" (toString newPage) k hk⟩

/-- Witness for C9: changePage(5) with an existing category=shoes query —
the navigated URL contains both page=5 and category=shoes. -/
theorem handlePageChange_rewrites_page_only_witness :
    ("category" ≠ "page") ∧
    (getParam (setParam [("category", "shoes"), ("page", "2")] "page" (toString (5 : Int)))
        "category" = getParam [("category", "shoes"), ("page", "2")] "category") ∧
    (handlePageChange [("category", "shoes"), ("page", "2")] 5 = "/?category=shoes&page=5") :=
  ⟨by decide,
    (handlePageChange_rewrites_page_only [("category", "shoes"), ("page", "2")] 5
      "category" (by decide)).2.2,
    by decide⟩

/-! ### Page-number coercion (part_000 line 36) -/

/-- Value of a decimal digit character. -/
def digitVal (c : Char) : Nat := c.toNat - 48

/-- Numeric value of a non-empty all-digit character list; `none` otherwise
(the NaN outcome). -/
def parseDigits (cs : List Char) : Option Nat :=
  if cs ≠ [] ∧ cs.all (fun c => c.isDigit) then
    some (cs.foldl (fun acc c => acc * 10 + digitVal c) 0)
  else none

/-- The JS `Number` coercion on the nullable string returned by
`searchParams.get("page")`, modelled on optional-sign decimal strings:
`Number(null) = 0`, `Number("") = 0`, a signed run of digits gives its
value, and anything non-numeric gives NaN, modelled as `none`. -/
def jsNumber : Option String → Option Int
  | none => some 0
  | some s =>
    match s.toList with
    | [] => some 0
    | c :: rest =>
      if c = '-' then (parseDigits rest).map (fun n => -(n : Int))
      else if c = '+' then (parseDigits rest).map (fun n => (n : Int))
      else (parseDigits (c :: rest)).map (fun n => (n : Int))

/-- Line 36 of part_000: `const currentPage = Number(searchParams.get("page")) || 1`.
The `||` takes the right operand exactly when `Number(...)` is falsy, i.e.
NaN or 0. -/
def currentPage (pageParam : Option String) : Int :=
  match jsNumber pageParam with
  | none => 1
  | some n => if n = 0 then 1 else n

/-- C10 -- The derived page number is 1 when the page parameter is absent,
non-numeric, or numerically zero (coercion then falsy-fallback); every
other numeric value, negative integers included, passes through unaltered,
so no positive-integer constraint is enforced. -/
theorem currentPage_falsy_fallback :
    currentPage none = 1 ∧
    currentPage (some "") = 1 ∧
    currentPage (some "abc") = 1 ∧
    currentPage (some "0") = 1 ∧
    currentPage (some "-3") = -3 ∧
    (∀ v n, jsNumber v = some n → n ≠ 0 → currentPage v = n) := by
  refine ⟨rfl, rfl, rfl, rfl, rfl, ?_⟩
  intro v n hv hn
  simp [currentPage, hv, hn]

/-- Witness for C10's pass-through clause at the stored value "7". -/
theorem currentPage_falsy_fallback_witness :
    jsNumber (some "7") = some 7 ∧ (7 : Int) ≠ 0 ∧ currentPage (some "7") = 7 :=
  ⟨rfl, by decide, currentPage_falsy_fallback.2.2.2.2.2 (some "7") 7 rfl (by decide)⟩

end FluxStore
